import Mathlib

/-!
Verification of the rule model and Starlark emitter of `reindeer`
(`src/buck.rs` and `src/config.rs`), as a shallow embedding.

Serde-derived serialization of a rule struct is modelled as the list of
`(argument name, Starlark value)` pairs the struct serializes to, in declared
field order, with `#[serde(flatten)]` fields spliced inline and
`#[serde(skip_serializing_if = ...)]` fields dropped when the skip predicate
holds.  `BTreeSet`/`BTreeMap`/`Vec` fields are modelled as Lean lists (for the
claims below only their emptiness, membership and order are relevant).
-/

set_option autoImplicit false

namespace Reindeer

/-- `BuckPath` (buck.rs 88-101) wraps a `PathBuf`.  The source touches the
native path only through `as_path().to_str()`, which yields the path's text
exactly when the native path is valid UTF-8.  We model the native path by that
view: `toStr = some s` when the path is representable as the text `s`, and
`toStr = none` when it is not. -/
structure BuckPath where
  toStr : Option String
deriving DecidableEq

/-- Character-wise form of Rust's `s.replace('\\', "/")` (buck.rs 95): every
backslash becomes a forward slash, all other characters are unchanged. -/
def replaceBS (cs : List Char) : List Char :=
  cs.map fun c => if c = '\\' then '/' else c

/-- `impl Serialize for BuckPath` (buck.rs 91-101): serialize the `to_str`
text with every backslash replaced by `/`; fail when the path is not valid
UTF-8.  The error is serde's custom error carrying this message (the spec
calls this failure `EncodingError`). -/
def BuckPath.serialize (p : BuckPath) : Except String String :=
  match p.toStr with
  | some s => .ok (String.mk (replaceBS s.data))
  | none => .error "path contains invalid UTF-8 characters"

/-- Names of the keyword arguments the rule structs can emit, one constructor
per distinct serde field name (after `rename`). -/
inductive ArgKey where
  | name
  | visibility
  | licenses
  | compatible_with
  | srcs
  | headers
  | mapped_srcs
  | rustc_flags
  | features
  | deps
  | named_deps
  | env
  | link_style
  | preferred_linkage
  | crate
  | crate_root
  | edition
  | platform
  | proc_macro
  | dlopen_enable
  | python_ext
  | linkable_alias
  | buildscript_rule
  | package_name
  | version
  | cfgs
  | path_env
  | outfile
  | files
  | exported_headers
  | compiler_flags
  | preprocessor_flags
  | header_namespace
  | include_directories
  | static_lib
  | actual
deriving DecidableEq

/-- A Starlark value tree as serde_starlark builds it: string, bool, `None`,
list literal, map literal, or a function call with keyword arguments (the
`call:NAME` wrapper shape, buck.rs 223-225). -/
inductive SVal where
  | str (s : String)
  | bool (b : Bool)
  | noneLit
  | path (p : BuckPath)
  | list (xs : List SVal)
  | map (kvs : List (SVal × SVal))
  | call (fn : String) (args : List (ArgKey × SVal))

/-- Whether a Starlark value is a function call. -/
def SVal.isCall : SVal → Bool
  | .call _ _ => true
  | _ => false

/-- Whether a Starlark value is a map literal. -/
def SVal.isMap : SVal → Bool
  | .map _ => true
  | _ => false

/-- An argument list as serde_starlark receives it from a rule struct. -/
abbrev Args := List (ArgKey × SVal)

/-- The argument names of an argument list. -/
def keys (args : Args) : List ArgKey :=
  args.map Prod.fst

/-- A field with `#[serde(skip_serializing_if = ...)]`: present exactly when
`keep` holds (i.e. the skip predicate is false). -/
def optArg (keep : Bool) (k : ArgKey) (v : SVal) : Args :=
  if keep then [(k, v)] else []

/-- An `Option` field with `#[serde(skip_serializing_if = "Option::is_none")]`
whose payload serializes as a string. -/
def optionArg (k : ArgKey) : Option String → Args
  | some s => [(k, .str s)]
  | none => []

/-- `RuleRef` (buck.rs 42-46): a target string and an optional platform
predicate expression (`PlatformExpr` is a string; it lives in platform.rs,
outside the given sources). -/
structure RuleRef where
  target : String
  platform : Option String
deriving DecidableEq

/-- `RuleRef::new` (buck.rs 49-54). -/
def RuleRef.new (target : String) : RuleRef :=
  { target := target, platform := none }

/-- `RuleRef::with_platform` (buck.rs 56-61). -/
def RuleRef.with_platform (r : RuleRef) (p : Option String) : RuleRef :=
  { target := r.target, platform := p }

/-- `RuleRef::has_platform` (buck.rs 63-65). -/
def RuleRef.has_platform (r : RuleRef) : Bool :=
  r.platform.isSome

/-- `impl Serialize for RuleRef` (buck.rs 82-86): only the target string. -/
def RuleRef.serialize (r : RuleRef) : SVal :=
  .str r.target

/-- `PredicateParseError` (platform.rs, outside the given sources): carries
the offending substring. -/
structure PredicateParseError where
  msg : String
deriving DecidableEq

/-- `RuleRef::filter` (buck.rs 69-79), parametric in the platform-predicate
`parse` and `eval` functions, which live in platform.rs (outside the given
sources): no predicate means `Ok(true)`; otherwise parse the predicate (a
parse error propagates via `?`) and return its evaluation against the
platform config. -/
def RuleRef.filter {Pred PlatformConfig : Type}
    (parse : String → Except PredicateParseError Pred)
    (eval : Pred → PlatformConfig → Bool)
    (r : RuleRef) (platform_config : PlatformConfig) :
    Except PredicateParseError Bool :=
  match r.platform with
  | none => .ok true
  | some cfg =>
    match parse cfg with
    | .error e => .error e
    | .ok p => .ok (eval p platform_config)

/-- Rust's derived `Ord` on `String`, as an `Ordering`-valued comparison over
Lean's linear order on strings. -/
def nameCmp (a b : String) : Ordering :=
  if a < b then .lt else if b < a then .gt else .eq

/-- Rust's derived `Ord` on `Option<String>`: `None` sorts before `Some`. -/
def optCmp : Option String → Option String → Ordering
  | none, none => .eq
  | none, some _ => .lt
  | some _, none => .gt
  | some x, some y => nameCmp x y

/-- Derived `Ord` for `RuleRef` (buck.rs 42): field order, so lexicographic
over `(target, platform)`. -/
def RuleRef.cmp (r s : RuleRef) : Ordering :=
  (nameCmp r.target s.target).then (optCmp r.platform s.platform)

/-- Derived `PartialEq` for `RuleRef` (buck.rs 42): both fields equal. -/
def RuleRef.beq (r s : RuleRef) : Bool :=
  r.target == s.target && r.platform == s.platform

/-- `visibility` (buck.rs 121-123): `["PUBLIC"]` when public, else `[]`. -/
def visibility (vis : Bool) : SVal :=
  .list (if vis then [.str "PUBLIC"] else [])

/-- `Alias` (buck.rs 103-115).  The `_dummy` map is `skip_serializing` and is
not part of the model. -/
structure Alias where
  name : String
  actual : String
  public : Bool
deriving DecidableEq

/-- Serialization of `Alias`: declared field order; `actual` goes through
`serialize_name_as_label` (buck.rs 117-119), which prepends `:`; `public` is
renamed `visibility` and goes through `visibility`.  No field is skipped. -/
def Alias.args (a : Alias) : Args :=
  [(.name, .str a.name),
   (.actual, .str (":" ++ a.actual)),
   (.visibility, visibility a.public)]

/-- `Common` (buck.rs 126-134). -/
structure Common where
  name : String
  public : Bool
  licenses : List BuckPath
  compatible_with : List RuleRef
deriving DecidableEq

/-- Serialization of `Common`: `name`, then `public` renamed `visibility`
(never skipped), then `licenses` and `compatible_with`, each skipped when
empty. -/
def Common.args (c : Common) : Args :=
  [(.name, .str c.name),
   (.visibility, visibility c.public)]
  ++ optArg (!c.licenses.isEmpty) .licenses (.list (c.licenses.map .path))
  ++ optArg (!c.compatible_with.isEmpty) .compatible_with
      (.list (c.compatible_with.map RuleRef.serialize))

/-- `PlatformRustCommon` (buck.rs 141-168).  The `_dummy` map is skipped
unconditionally (`skip_serializing_if = "always"`) and is not part of the
model. -/
structure PlatformRustCommon where
  srcs : List BuckPath
  mapped_srcs : List (String × BuckPath)
  rustc_flags : List String
  features : List String
  deps : List RuleRef
  named_deps : List (String × RuleRef)
  env : List (String × String)
  link_style : Option String
  preferred_linkage : Option String
deriving DecidableEq

/-- Serialization of `PlatformRustCommon`: every field is skipped at its
default (empty collection or absent option). -/
def PlatformRustCommon.args (p : PlatformRustCommon) : Args :=
  optArg (!p.srcs.isEmpty) .srcs (.list (p.srcs.map .path))
  ++ optArg (!p.mapped_srcs.isEmpty) .mapped_srcs
      (.map (p.mapped_srcs.map fun kv => (.str kv.1, .path kv.2)))
  ++ optArg (!p.rustc_flags.isEmpty) .rustc_flags (.list (p.rustc_flags.map .str))
  ++ optArg (!p.features.isEmpty) .features (.list (p.features.map .str))
  ++ optArg (!p.deps.isEmpty) .deps (.list (p.deps.map RuleRef.serialize))
  ++ optArg (!p.named_deps.isEmpty) .named_deps
      (.map (p.named_deps.map fun kv => (.str kv.1, RuleRef.serialize kv.2)))
  ++ optArg (!p.env.isEmpty) .env
      (.map (p.env.map fun kv => (.str kv.1, .str kv.2)))
  ++ optionArg .link_style p.link_style
  ++ optionArg .preferred_linkage p.preferred_linkage

/-- The entries of the serialized per-platform map (buck.rs 227): each
platform name mapped, in order, to a `dict(...)` call holding that platform's
serialized attributes. -/
def platformEntries (platforms : List (String × PlatformRustCommon)) :
    List (SVal × SVal) :=
  platforms.map fun nv => (.str nv.1, .call "dict" (PlatformRustCommon.args nv.2))

/-- `serialize_platforms_dict` (buck.rs 216-228): `collect_map` over the
entries, each value wrapped in the `call:dict` newtype — i.e. a map literal
whose values are `dict(...)` calls.  It takes no configuration input. -/
def serialize_platforms_dict (platforms : List (String × PlatformRustCommon)) :
    SVal :=
  .map (platformEntries platforms)

/-- `RustCommon` (buck.rs 170-189).  `Edition` (cargo.rs, outside the given
sources) is an opaque string here. -/
structure RustCommon where
  common : Common
  krate : String
  rootmod : BuckPath
  edition : String
  base : PlatformRustCommon
  platform : List (String × PlatformRustCommon)
deriving DecidableEq

/-- Serialization of `RustCommon`: flattened `Common`, then `crate` (renamed
from `krate`), `crate_root` (renamed from `rootmod`), `edition`, the
flattened base `PlatformRustCommon`, and `platform` (skipped when empty,
serialized by `serialize_platforms_dict`; the field carries no serde rename,
so the emitted keyword is the field name `platform` — the spec and the
source's doc comment call this the `platforms` argument). -/
def RustCommon.args (rc : RustCommon) : Args :=
  rc.common.args
  ++ [(.crate, .str rc.krate),
      (.crate_root, .path rc.rootmod),
      (.edition, .str rc.edition)]
  ++ rc.base.args
  ++ optArg (!rc.platform.isEmpty) .platform (serialize_platforms_dict rc.platform)

/-- `RustLibrary` (buck.rs 234-246). -/
structure RustLibrary where
  common : RustCommon
  proc_macro : Bool
  dlopen_enable : Bool
  python_ext : Option String
  linkable_alias : Option String
deriving DecidableEq

/-- Serialization of `RustLibrary`: flattened `RustCommon`, then the two
booleans (skipped when false, `is_false`) and two options (skipped when
absent). -/
def RustLibrary.args (l : RustLibrary) : Args :=
  l.common.args
  ++ optArg l.proc_macro ArgKey.proc_macro (.bool l.proc_macro)
  ++ optArg l.dlopen_enable .dlopen_enable (.bool l.dlopen_enable)
  ++ optionArg .python_ext l.python_ext
  ++ optionArg .linkable_alias l.linkable_alias

/-- `RustBinary` (buck.rs 248-252): just a flattened `RustCommon`. -/
structure RustBinary where
  common : RustCommon
deriving DecidableEq

/-- Serialization of `RustBinary`. -/
def RustBinary.args (b : RustBinary) : Args :=
  b.common.args

/-- `BuildscriptGenrule` (buck.rs 254-266).  `Version` (semver) is an opaque
string here. -/
structure BuildscriptGenrule where
  name : String
  buildscript_rule : RuleRef
  package_name : String
  version : String
  features : List String
  cfgs : List String
  env : List (String × String)
  path_env : List (String × String)
deriving DecidableEq

/-- Serialization of `BuildscriptGenrule`: `name`, `buildscript_rule`,
`package_name`, `version`, `features` and `cfgs` are always emitted (no skip
attribute); only `env` and `path_env` are skipped when empty. -/
def BuildscriptGenrule.args (g : BuildscriptGenrule) : Args :=
  [(.name, .str g.name),
   (.buildscript_rule, g.buildscript_rule.serialize),
   (.package_name, .str g.package_name),
   (.version, .str g.version),
   (.features, .list (g.features.map .str)),
   (.cfgs, .list (g.cfgs.map .str))]
  ++ optArg (!g.env.isEmpty) .env
      (.map (g.env.map fun kv => (.str kv.1, .str kv.2)))
  ++ optArg (!g.path_env.isEmpty) .path_env
      (.map (g.path_env.map fun kv => (.str kv.1, .str kv.2)))

/-- `BuildscriptGenruleFilter` (buck.rs 268-273). -/
structure BuildscriptGenruleFilter where
  base : BuildscriptGenrule
  outfile : String
deriving DecidableEq

/-- Serialization of `BuildscriptGenruleFilter`: flattened base, then
`outfile` (always emitted). -/
def BuildscriptGenruleFilter.args (f : BuildscriptGenruleFilter) : Args :=
  f.base.args ++ [(.outfile, .str f.outfile)]

/-- `BuildscriptGenruleSrcs` (buck.rs 275-282). -/
structure BuildscriptGenruleSrcs where
  base : BuildscriptGenrule
  files : List String
  srcs : List BuckPath
deriving DecidableEq

/-- Serialization of `BuildscriptGenruleSrcs`: flattened base, then `files`
(always emitted) and `srcs` (skipped when empty). -/
def BuildscriptGenruleSrcs.args (s : BuildscriptGenruleSrcs) : Args :=
  s.base.args
  ++ [(.files, .list (s.files.map .str))]
  ++ optArg (!s.srcs.isEmpty) .srcs (.list (s.srcs.map .path))

/-- `SetOrMap<BuckPath>` (collection.rs, outside the given sources): either a
set of paths or a mapping from logical name to path. -/
inductive SetOrMap where
  | set (xs : List BuckPath)
  | map (kvs : List (String × BuckPath))
deriving DecidableEq

/-- `SetOrMap::is_empty`. -/
def SetOrMap.is_empty : SetOrMap → Bool
  | .set xs => xs.isEmpty
  | .map kvs => kvs.isEmpty

/-- Serialization of a `SetOrMap`: the set shape is a list literal, the map
shape a map literal. -/
def SetOrMap.serialize : SetOrMap → SVal
  | .set xs => .list (xs.map .path)
  | .map kvs => .map (kvs.map fun kv => (.str kv.1, .path kv.2))

/-- `CxxLibrary` (buck.rs 284-303). -/
structure CxxLibrary where
  common : Common
  srcs : List BuckPath
  headers : List BuckPath
  exported_headers : SetOrMap
  compiler_flags : List String
  preprocessor_flags : List String
  header_namespace : Option String
  include_directories : List BuckPath
  deps : List RuleRef
  preferred_linkage : Option String
deriving DecidableEq

/-- Serialization of `CxxLibrary`: flattened `Common`; `srcs`, `headers` and
`preferred_linkage` carry no skip attribute and are always emitted (an absent
`preferred_linkage` emits `None`); the remaining fields are skipped at their
defaults. -/
def CxxLibrary.args (l : CxxLibrary) : Args :=
  l.common.args
  ++ [(.srcs, .list (l.srcs.map .path)),
      (.headers, .list (l.headers.map .path))]
  ++ optArg (!l.exported_headers.is_empty) .exported_headers l.exported_headers.serialize
  ++ optArg (!l.compiler_flags.isEmpty) .compiler_flags
      (.list (l.compiler_flags.map .str))
  ++ optArg (!l.preprocessor_flags.isEmpty) .preprocessor_flags
      (.list (l.preprocessor_flags.map .str))
  ++ optionArg .header_namespace l.header_namespace
  ++ optArg (!l.include_directories.isEmpty) .include_directories
      (.list (l.include_directories.map .path))
  ++ optArg (!l.deps.isEmpty) .deps (.list (l.deps.map RuleRef.serialize))
  ++ [(.preferred_linkage,
       match l.preferred_linkage with
       | some s => .str s
       | none => .noneLit)]

/-- `PrebuiltCxxLibrary` (buck.rs 305-310). -/
structure PrebuiltCxxLibrary where
  common : Common
  static_lib : BuckPath
deriving DecidableEq

/-- Serialization of `PrebuiltCxxLibrary`: flattened `Common`, then
`static_lib` (always emitted). -/
def PrebuiltCxxLibrary.args (l : PrebuiltCxxLibrary) : Args :=
  l.common.args ++ [(.static_lib, .path l.static_lib)]

/-- `Rule` (buck.rs 312-321). -/
inductive Rule where
  | alias (a : Alias)
  | binary (b : RustBinary)
  | library (l : RustLibrary)
  | buildscriptGenruleSrcs (s : BuildscriptGenruleSrcs)
  | buildscriptGenruleFilter (f : BuildscriptGenruleFilter)
  | cxxLibrary (l : CxxLibrary)
  | prebuiltCxxLibrary (l : PrebuiltCxxLibrary)
deriving DecidableEq

/-- `Rule::get_name` (buck.rs 357-394). -/
def Rule.get_name : Rule → String
  | .alias a => a.name
  | .binary b => b.common.common.name
  | .library l => l.common.common.name
  | .buildscriptGenruleSrcs s => s.base.name
  | .buildscriptGenruleFilter f => f.base.name
  | .cxxLibrary l => l.common.name
  | .prebuiltCxxLibrary l => l.common.name

/-- `rule_sort_key` (buck.rs 337-349): an alias sorts by the name of its
`actual` with tier 0, every other variant by its own name with tier 1. -/
def rule_sort_key : Rule → String × Nat
  | .alias a => (a.actual, 0)
  | r => (r.get_name, 1)

/-- Whether a rule is the `Alias` variant. -/
def Rule.isAlias : Rule → Bool
  | .alias _ => true
  | _ => false

/-- `impl Ord for Rule` (buck.rs 351-355): compare the sort keys, name first,
then tier (Rust tuple order). -/
def Rule.cmp (r s : Rule) : Ordering :=
  (nameCmp (rule_sort_key r).1 (rule_sort_key s).1).then
    (compare (rule_sort_key r).2 (rule_sort_key s).2)

/-- `impl PartialEq for Rule` (buck.rs 325-329): rules are compared by name
alone. -/
def Rule.beq (r s : Rule) : Bool :=
  r.get_name == s.get_name

/-- First argument bound to `k` in an argument list, if any. -/
def getArg : Args → ArgKey → Option SVal
  | [], _ => none
  | (k', v) :: rest, k => if k' = k then some v else getArg rest k

/-- The strict part of Rust's `Option<String>` order (`None < Some`), stated
directly as the spec's lexicographic reading. -/
def optLt : Option String → Option String → Prop
  | none, none => False
  | none, some _ => True
  | some _, none => False
  | some x, some y => x < y

/-- `StringWithDefault` (config.rs 166-171): a string plus a bit recording
whether it is still the compiled-in default.  The emitter itself reads only
the string. -/
structure StringWithDefault where
  value : String
  is_default : Bool
deriving DecidableEq

/-- `BuckConfig` (config.rs 105-144): the emission knobs.  The source field
`alias` is spelled `alias_rule` here because `alias` is a Lean keyword. -/
structure BuckConfig where
  file_name : StringWithDefault
  generated_file_header : StringWithDefault
  buckfile_imports : StringWithDefault
  alias_rule : StringWithDefault
  http_archive : StringWithDefault
  git_fetch : StringWithDefault
  rust_library : StringWithDefault
  rust_binary : StringWithDefault
  cxx_library : StringWithDefault
  prebuilt_cxx_library : StringWithDefault
  buildscript_binary : Option String
  buildscript_genrule : StringWithDefault
deriving DecidableEq

/-- Modelled from the spec: `PlatformConfig` (platform.rs, not among the given
sources) is "an attribute bag" consumed by the predicate evaluator (§4.3, §6).
Its content is irrelevant to the emission claims; only its presence under a
platform name matters. -/
structure PlatformConfig where
  attrs : List (String × String)
deriving DecidableEq

/-- `Config` (config.rs 36-92), restricted to the field the emission claims
consult: the map from platform name to `PlatformConfig` (config.rs 90-92).
The remaining fields configure collaborators outside the emission core. -/
structure Config where
  platform : List (String × PlatformConfig)
deriving DecidableEq

/-- `Rule::render` (buck.rs 396-435): the rule's function-call text followed
by a newline.  `serde_starlark::function_call` is an external crate, so the
call text is a parameter `call`. -/
def Rule.render (call : Rule → String) (r : Rule) : String :=
  call r ++ "\n"

/-- The rule loop of `write_buckfile` (buck.rs 453-458): at index `i`, write a
blank-line separator before every rule after the first, then render the
rule. -/
def writeRulesFrom (call : Rule → String) : Nat → List Rule → String
  | _, [] => ""
  | i, r :: rs =>
    (if i > 0 then "\n" else "") ++ Rule.render call r ++ writeRulesFrom call (i + 1) rs

/-- `write_buckfile` (buck.rs 438-461): the header (followed by a newline only
when the header is non-empty), the preamble of load statements (likewise),
then the rules in the order received. -/
def write_buckfile (config : BuckConfig) (call : Rule → String) (rules : List Rule) :
    String :=
  config.generated_file_header.value
  ++ (if config.generated_file_header.value.isEmpty then "" else "\n")
  ++ config.buckfile_imports.value
  ++ (if config.buckfile_imports.value.isEmpty then "" else "\n")
  ++ writeRulesFrom call 0 rules

/-- Concatenation of a list of strings. -/
def joinAll : List String → String
  | [] => ""
  | x :: xs => x ++ joinAll xs

/-- Concatenation with one `"\n"` separator before every element after the
first. -/
def sepJoin : List String → String
  | [] => ""
  | x :: xs => x ++ joinAll (xs.map fun s => "\n" ++ s)

/-! Concrete example values, used by the witnesses and counterexamples. -/

/-- A `PlatformRustCommon` with every field at its default. -/
def prc0 : PlatformRustCommon :=
  { srcs := [], mapped_srcs := [], rustc_flags := [], features := [], deps := [],
    named_deps := [], env := [], link_style := none, preferred_linkage := none }

/-- A `RustCommon` carrying one per-platform override. -/
def rc0 : RustCommon :=
  { common := { name := "test", public := false, licenses := [], compatible_with := [] },
    krate := "test", rootmod := { toStr := some "src/lib.rs" }, edition := "2021",
    base := prc0, platform := [("linux-x86_64", prc0)] }

/-- A `CxxLibrary` with every optional field at its default. -/
def cxx0 : CxxLibrary :=
  { common := { name := "test-cxx", public := false, licenses := [], compatible_with := [] },
    srcs := [], headers := [], exported_headers := .set [], compiler_flags := [],
    preprocessor_flags := [], header_namespace := none, include_directories := [],
    deps := [], preferred_linkage := none }

/-- A build-script payload with every collection empty. -/
def bs0 : BuildscriptGenrule :=
  { name := "test-build-script-run", buildscript_rule := RuleRef.new ":test-build-script",
    package_name := "test", version := "1.0.0", features := [], cfgs := [],
    env := [], path_env := [] }

/-- An alias `foo` of `foo-1.0.0`. -/
def alias0 : Alias :=
  { name := "foo", actual := "foo-1.0.0", public := true }

/-- A binary named `foo-1.0.0`, the target of `alias0`. -/
def bin0 : RustBinary :=
  { common :=
      { common := { name := "foo-1.0.0", public := false, licenses := [], compatible_with := [] },
        krate := "foo", rootmod := { toStr := some "src/main.rs" }, edition := "2021",
        base := prc0, platform := [] } }

/-- An alias named `a` whose `actual` is the different name `b`. -/
def alias1 : Alias :=
  { name := "a", actual := "b", public := false }

/-- A binary named `a`, sharing its name with `alias1`. -/
def bin1 : RustBinary :=
  { common :=
      { common := { name := "a", public := false, licenses := [], compatible_with := [] },
        krate := "a", rootmod := { toStr := some "src/main.rs" }, edition := "2021",
        base := prc0, platform := [] } }

/-- An example predicate parser (used by the C4 witness): `cfg(unix)` parses,
any other string is a parse error carrying the offending substring. -/
def parse0 : String → Except PredicateParseError Unit :=
  fun s => if s = "cfg(unix)" then .ok () else .error { msg := s }

/-- An example predicate evaluator (used by the C4 witness). -/
def eval0 : Unit → Unit → Bool := fun _ _ => true

/-! Helper lemmas about comparisons. -/

theorem nameCmp_self (a : String) : nameCmp a a = .eq := by
  simp [nameCmp, lt_self_iff_false]

theorem nameCmp_eq_iff (a b : String) : nameCmp a b = .eq ↔ a = b := by
  unfold nameCmp
  split_ifs with h1 h2
  · simp [ne_of_lt h1]
  · simp [ne_of_gt h2]
  · simp [le_antisymm (le_of_not_lt h2) (le_of_not_lt h1)]

theorem nameCmp_lt_iff (a b : String) : nameCmp a b = .lt ↔ a < b := by
  unfold nameCmp
  split_ifs with h1 h2
  · simp [h1]
  · simp [lt_asymm h2]
  · simp [h1]

theorem optCmp_eq_iff (a b : Option String) : optCmp a b = .eq ↔ a = b := by
  cases a <;> cases b <;> simp [optCmp, nameCmp_eq_iff]

theorem optCmp_lt_iff (a b : Option String) : optCmp a b = .lt ↔ optLt a b := by
  cases a <;> cases b <;> simp [optCmp, optLt, nameCmp_lt_iff]

theorem then_eq_iff (o p : Ordering) : o.then p = .eq ↔ o = .eq ∧ p = .eq := by
  cases o <;> simp [Ordering.then]

theorem then_lt_iff (o p : Ordering) : o.then p = .lt ↔ o = .lt ∨ (o = .eq ∧ p = .lt) := by
  cases o <;> simp [Ordering.then]

/-- C9: Two `RuleRef`s are equal iff both their target string and their
optional platform predicate are equal; their ordering is lexicographic over
the pair `(target, platform)` (with `None` before `Some`); and serializing a
`RuleRef` writes only its target string — the predicate never appears in the
output (the serialization of any two refs with the same target coincides). -/
theorem ruleRef_eq_ord_serialization (r s : RuleRef) :
    (RuleRef.beq r s = true ↔ r.target = s.target ∧ r.platform = s.platform) ∧
    (RuleRef.cmp r s = .eq ↔ r = s) ∧
    (RuleRef.cmp r s = .lt ↔
      r.target < s.target ∨ (r.target = s.target ∧ optLt r.platform s.platform)) ∧
    (∀ q : Option String,
      RuleRef.serialize { target := r.target, platform := q } = .str r.target) := by
  refine ⟨?_, ?_, ?_, fun q => rfl⟩
  · simp [RuleRef.beq]
  · rw [RuleRef.cmp, then_eq_iff, nameCmp_eq_iff, optCmp_eq_iff]
    constructor
    · rintro ⟨h1, h2⟩
      cases r; cases s; simp_all
    · rintro rfl
      exact ⟨rfl, rfl⟩
  · rw [RuleRef.cmp, then_lt_iff, nameCmp_lt_iff, nameCmp_eq_iff, optCmp_lt_iff]

/-- C3: Under the canonical rule ordering, an alias `a` whose `actual` is `b`
compares strictly less than any non-alias rule named `b`: the alias's sort
key is `(b, 0)`, the rule's is `(b, 1)`. -/
theorem alias_sorts_before_target (a : Alias) (r : Rule)
    (hr : r.isAlias = false) (hname : r.get_name = a.actual) :
    Rule.cmp (.alias a) r = .lt := by
  have hkey : rule_sort_key r = (a.actual, 1) := by
    cases r <;> simp_all [rule_sort_key, Rule.isAlias, Rule.get_name]
  rw [Rule.cmp, hkey]
  show (nameCmp a.actual a.actual).then (compare 0 1) = .lt
  rw [nameCmp_self]
  decide

/-- Witness for C3: the alias `foo → foo-1.0.0` compares strictly less than
the binary named `foo-1.0.0`. -/
theorem alias_sorts_before_target_witness :
    Rule.cmp (.alias alias0) (.binary bin0) = .lt :=
  alias_sorts_before_target alias0 (.binary bin0) rfl rfl

/-- C10: Rule equality and rule ordering disagree: the alias named `a` (with
`actual = "b"`) and the binary named `a` are equal under `PartialEq` (names
alone are compared) but do not compare `Equal` (the alias's sort key uses its
`actual`, not its name). -/
theorem rule_eq_ord_disagree :
    Rule.beq (.alias alias1) (.binary bin1) = true ∧
    Rule.cmp (.alias alias1) (.binary bin1) ≠ .eq := by
  constructor
  · decide
  · intro h
    rw [Rule.cmp, then_eq_iff] at h
    have h1 : nameCmp "b" "a" = .eq := h.1
    exact absurd ((nameCmp_eq_iff _ _).mp h1) (by decide)

/-- C4: `RuleRef::filter` returns `Ok(true)` when no platform predicate is
set; with a predicate present it returns `Ok` of the predicate's evaluation
against the platform config when the predicate parses, and it returns
`Err(PredicateParseError)` exactly when the predicate string does not
parse. -/
theorem filter_spec {Pred PlatformConfig : Type}
    (parse : String → Except PredicateParseError Pred)
    (eval : Pred → PlatformConfig → Bool)
    (r : RuleRef) (pc : PlatformConfig) :
    (r.platform = none → r.filter parse eval pc = .ok true) ∧
    (∀ s, r.platform = some s →
      (∀ p, parse s = .ok p → r.filter parse eval pc = .ok (eval p pc)) ∧
      (∀ e, parse s = .error e → r.filter parse eval pc = .error e)) ∧
    ((∃ e, r.filter parse eval pc = .error e) ↔
      ∃ s e, r.platform = some s ∧ parse s = .error e) := by
  rcases r with ⟨t, _ | s⟩
  · refine ⟨fun _ => rfl, by simp, ?_⟩
    simp [RuleRef.filter]
  · refine ⟨by simp, ?_, ?_⟩
    · rintro s' hs'
      obtain rfl : s' = s := by simpa using hs'.symm
      constructor
      · intro p hp
        simp [RuleRef.filter, hp]
      · intro e he
        simp [RuleRef.filter, he]
    · cases hp : parse s with
      | error e => simp [RuleRef.filter, hp]
      | ok p => simp [RuleRef.filter, hp]

/-- Witness for C4: a ref whose predicate parses filters to `Ok` of the
predicate's evaluation. -/
theorem filter_spec_witness :
    RuleRef.filter parse0 eval0 { target := "//a:b", platform := some "cfg(unix)" } ()
      = .ok (eval0 () ()) :=
  ((filter_spec parse0 eval0
      { target := "//a:b", platform := some "cfg(unix)" } ()).2.1
    "cfg(unix)" rfl).1 () (by simp [parse0])

/-- C5: serializing a `BuckPath` succeeds exactly when the underlying path is
representable as text; on success the emitted string is the native text with
every backslash replaced (in place) by a forward slash, so it contains no
backslash; on a non-representable path it fails with the encoding error. -/
theorem buckPath_serialize_spec (p : BuckPath) :
    (p.toStr = none →
      p.serialize = .error "path contains invalid UTF-8 characters") ∧
    ((∃ out, p.serialize = .ok out) ↔ p.toStr ≠ none) ∧
    (∀ t out, p.toStr = some t → p.serialize = .ok out →
      out.data = replaceBS t.data ∧
      out.data.length = t.data.length ∧
      (∀ c ∈ out.data, c ≠ '\\') ∧
      (∀ i (hi : i < t.data.length) (ho : i < out.data.length),
        out.data.get ⟨i, ho⟩ =
          if t.data.get ⟨i, hi⟩ = '\\' then '/' else t.data.get ⟨i, hi⟩)) := by
  refine ⟨?_, ?_, ?_⟩
  · intro h
    obtain ⟨o⟩ := p
    obtain rfl : o = none := h
    rfl
  · obtain ⟨_ | t⟩ := p <;> simp [BuckPath.serialize]
  · intro t out ht hout
    obtain ⟨o⟩ := p
    obtain rfl : o = some t := ht
    have hmk : String.mk (replaceBS t.data) = out := by
      simpa [BuckPath.serialize] using hout
    subst hmk
    refine ⟨rfl, by simp [replaceBS], ?_, ?_⟩
    · intro c hc
      simp only [replaceBS] at hc
      rcases List.mem_map.mp hc with ⟨c', _, rfl⟩
      split_ifs with h
      · decide
      · exact h
    · intro i hi ho
      simp [replaceBS, List.getElem_map]

/-! Helper lemmas about argument-list keys. -/

theorem keys_nil : keys [] = [] := rfl

theorem keys_cons (k : ArgKey) (v : SVal) (rest : Args) :
    keys ((k, v) :: rest) = k :: keys rest := rfl

theorem keys_append (a b : Args) : keys (a ++ b) = keys a ++ keys b :=
  List.map_append _ a b

theorem keys_optArg_notEmpty {α : Type} [DecidableEq α] (l : List α) (k : ArgKey)
    (v : SVal) :
    keys (optArg (!l.isEmpty) k v) = if l = [] then [] else [k] := by
  cases l <;> simp [optArg, keys]

theorem keys_optArg_bool (b : Bool) (k : ArgKey) (v : SVal) :
    keys (optArg b k v) = if b then [k] else [] := by
  cases b <;> simp [optArg, keys]

theorem keys_optArg_setOrMap (s : SetOrMap) (k : ArgKey) (v : SVal) :
    keys (optArg (!s.is_empty) k v) = if s.is_empty then [] else [k] := by
  cases h : s.is_empty <;> simp [optArg, keys, h]

theorem keys_optionArg (k : ArgKey) (o : Option String) :
    keys (optionArg k o) = if o = none then [] else [k] := by
  cases o <;> simp [optionArg, keys]

theorem mem_ite_nil_single {α : Type} (P : Prop) [Decidable P] (a x : α) :
    (a ∈ if P then ([] : List α) else [x]) ↔ ¬P ∧ a = x := by
  split_ifs with h <;> simp [h]

/-- Witness for C5: the path text `a\b` serializes successfully to `a/b`,
whose characters are slash-for-backslash replacements of the input's. -/
theorem buckPath_serialize_spec_witness :
    ("a/b" : String).data = replaceBS ("a\\b" : String).data ∧
    ("a/b" : String).data.length = ("a\\b" : String).data.length ∧
    (∀ c ∈ ("a/b" : String).data, c ≠ '\\') ∧
    (∀ i (hi : i < ("a\\b" : String).data.length)
        (ho : i < ("a/b" : String).data.length),
      ("a/b" : String).data.get ⟨i, ho⟩ =
        if ("a\\b" : String).data.get ⟨i, hi⟩ = '\\' then '/'
        else ("a\\b" : String).data.get ⟨i, hi⟩) :=
  (buckPath_serialize_spec { toStr := some "a\\b" }).2.2 "a\\b" "a/b" rfl rfl

/-! Argument-key computations for each rule variant. -/

theorem keys_common_args (c : Common) :
    keys c.args =
      [ArgKey.name, ArgKey.visibility]
      ++ (if c.licenses = [] then [] else [ArgKey.licenses])
      ++ (if c.compatible_with = [] then [] else [ArgKey.compatible_with]) := by
  simp [Common.args, keys_append, keys_cons, keys_nil, keys_optArg_notEmpty]

theorem keys_prc_args (p : PlatformRustCommon) :
    keys p.args =
      (if p.srcs = [] then [] else [ArgKey.srcs])
      ++ (if p.mapped_srcs = [] then [] else [ArgKey.mapped_srcs])
      ++ (if p.rustc_flags = [] then [] else [ArgKey.rustc_flags])
      ++ (if p.features = [] then [] else [ArgKey.features])
      ++ (if p.deps = [] then [] else [ArgKey.deps])
      ++ (if p.named_deps = [] then [] else [ArgKey.named_deps])
      ++ (if p.env = [] then [] else [ArgKey.env])
      ++ (if p.link_style = none then [] else [ArgKey.link_style])
      ++ (if p.preferred_linkage = none then [] else [ArgKey.preferred_linkage]) := by
  simp [PlatformRustCommon.args, keys_append, keys_cons, keys_nil,
    keys_optArg_notEmpty, keys_optionArg]

theorem keys_rc_args (rc : RustCommon) :
    keys rc.args =
      keys rc.common.args
      ++ [ArgKey.crate, ArgKey.crate_root, ArgKey.edition]
      ++ keys rc.base.args
      ++ (if rc.platform = [] then [] else [ArgKey.platform]) := by
  simp [RustCommon.args, keys_append, keys_cons, keys_nil, keys_optArg_notEmpty]

theorem keys_bs_args (g : BuildscriptGenrule) :
    keys g.args =
      [ArgKey.name, ArgKey.buildscript_rule, ArgKey.package_name, ArgKey.version,
       ArgKey.features, ArgKey.cfgs]
      ++ (if g.env = [] then [] else [ArgKey.env])
      ++ (if g.path_env = [] then [] else [ArgKey.path_env]) := by
  simp [BuildscriptGenrule.args, keys_append, keys_cons, keys_nil,
    keys_optArg_notEmpty]

/-- C1 fails on the code: a `CxxLibrary` whose `srcs` and `headers` sets are
empty and whose `preferred_linkage` is absent still emits all three
arguments, and a build-script payload with empty `features` and `cfgs` still
emits both — these fields carry no skip annotation. -/
theorem cxx_and_buildscript_emit_defaults :
    cxx0.srcs = [] ∧ cxx0.headers = [] ∧ cxx0.preferred_linkage = none ∧
    ArgKey.srcs ∈ keys cxx0.args ∧ ArgKey.headers ∈ keys cxx0.args ∧
    ArgKey.preferred_linkage ∈ keys cxx0.args ∧
    bs0.features = [] ∧ bs0.cfgs = [] ∧
    ArgKey.features ∈ keys bs0.args ∧ ArgKey.cfgs ∈ keys bs0.args := by
  decide

/-- C1 (amended): for every rule variant, the emitted argument names are
exactly the declared fields in declared order, where a field carrying a
serde skip annotation is omitted iff its value equals its default (empty
collection, absent option, false boolean), and every other field — `name`,
`visibility`, `actual`, `crate`, `crate_root`, `edition`, the build-script
payload's `buildscript_rule`, `package_name`, `version`, `features` and
`cfgs`, `outfile`, `files`, `static_lib`, and `CxxLibrary`'s `srcs`,
`headers` and `preferred_linkage` — is always emitted, whatever its value. -/
theorem omission_iff_default :
    (∀ a : Alias, keys a.args = [ArgKey.name, ArgKey.actual, ArgKey.visibility]) ∧
    (∀ l : RustLibrary, keys l.args =
      [ArgKey.name, ArgKey.visibility]
      ++ (if l.common.common.licenses = [] then [] else [ArgKey.licenses])
      ++ (if l.common.common.compatible_with = [] then [] else [ArgKey.compatible_with])
      ++ [ArgKey.crate, ArgKey.crate_root, ArgKey.edition]
      ++ (if l.common.base.srcs = [] then [] else [ArgKey.srcs])
      ++ (if l.common.base.mapped_srcs = [] then [] else [ArgKey.mapped_srcs])
      ++ (if l.common.base.rustc_flags = [] then [] else [ArgKey.rustc_flags])
      ++ (if l.common.base.features = [] then [] else [ArgKey.features])
      ++ (if l.common.base.deps = [] then [] else [ArgKey.deps])
      ++ (if l.common.base.named_deps = [] then [] else [ArgKey.named_deps])
      ++ (if l.common.base.env = [] then [] else [ArgKey.env])
      ++ (if l.common.base.link_style = none then [] else [ArgKey.link_style])
      ++ (if l.common.base.preferred_linkage = none then [] else [ArgKey.preferred_linkage])
      ++ (if l.common.platform = [] then [] else [ArgKey.platform])
      ++ (if l.proc_macro then [ArgKey.proc_macro] else [])
      ++ (if l.dlopen_enable then [ArgKey.dlopen_enable] else [])
      ++ (if l.python_ext = none then [] else [ArgKey.python_ext])
      ++ (if l.linkable_alias = none then [] else [ArgKey.linkable_alias])) ∧
    (∀ b : RustBinary, keys b.args =
      [ArgKey.name, ArgKey.visibility]
      ++ (if b.common.common.licenses = [] then [] else [ArgKey.licenses])
      ++ (if b.common.common.compatible_with = [] then [] else [ArgKey.compatible_with])
      ++ [ArgKey.crate, ArgKey.crate_root, ArgKey.edition]
      ++ (if b.common.base.srcs = [] then [] else [ArgKey.srcs])
      ++ (if b.common.base.mapped_srcs = [] then [] else [ArgKey.mapped_srcs])
      ++ (if b.common.base.rustc_flags = [] then [] else [ArgKey.rustc_flags])
      ++ (if b.common.base.features = [] then [] else [ArgKey.features])
      ++ (if b.common.base.deps = [] then [] else [ArgKey.deps])
      ++ (if b.common.base.named_deps = [] then [] else [ArgKey.named_deps])
      ++ (if b.common.base.env = [] then [] else [ArgKey.env])
      ++ (if b.common.base.link_style = none then [] else [ArgKey.link_style])
      ++ (if b.common.base.preferred_linkage = none then [] else [ArgKey.preferred_linkage])
      ++ (if b.common.platform = [] then [] else [ArgKey.platform])) ∧
    (∀ f : BuildscriptGenruleFilter, keys f.args =
      [ArgKey.name, ArgKey.buildscript_rule, ArgKey.package_name, ArgKey.version,
       ArgKey.features, ArgKey.cfgs]
      ++ (if f.base.env = [] then [] else [ArgKey.env])
      ++ (if f.base.path_env = [] then [] else [ArgKey.path_env])
      ++ [ArgKey.outfile]) ∧
    (∀ s : BuildscriptGenruleSrcs, keys s.args =
      [ArgKey.name, ArgKey.buildscript_rule, ArgKey.package_name, ArgKey.version,
       ArgKey.features, ArgKey.cfgs]
      ++ (if s.base.env = [] then [] else [ArgKey.env])
      ++ (if s.base.path_env = [] then [] else [ArgKey.path_env])
      ++ [ArgKey.files]
      ++ (if s.srcs = [] then [] else [ArgKey.srcs])) ∧
    (∀ l : CxxLibrary, keys l.args =
      [ArgKey.name, ArgKey.visibility]
      ++ (if l.common.licenses = [] then [] else [ArgKey.licenses])
      ++ (if l.common.compatible_with = [] then [] else [ArgKey.compatible_with])
      ++ [ArgKey.srcs, ArgKey.headers]
      ++ (if l.exported_headers.is_empty then [] else [ArgKey.exported_headers])
      ++ (if l.compiler_flags = [] then [] else [ArgKey.compiler_flags])
      ++ (if l.preprocessor_flags = [] then [] else [ArgKey.preprocessor_flags])
      ++ (if l.header_namespace = none then [] else [ArgKey.header_namespace])
      ++ (if l.include_directories = [] then [] else [ArgKey.include_directories])
      ++ (if l.deps = [] then [] else [ArgKey.deps])
      ++ [ArgKey.preferred_linkage]) ∧
    (∀ l : PrebuiltCxxLibrary, keys l.args =
      [ArgKey.name, ArgKey.visibility]
      ++ (if l.common.licenses = [] then [] else [ArgKey.licenses])
      ++ (if l.common.compatible_with = [] then [] else [ArgKey.compatible_with])
      ++ [ArgKey.static_lib]) := by
  refine ⟨fun a => rfl, ?_, ?_, ?_, ?_, ?_, ?_⟩
  · intro l
    simp [RustLibrary.args, keys_rc_args, keys_common_args, keys_prc_args,
      keys_append, keys_cons, keys_nil, keys_optArg_bool, keys_optionArg,
      List.append_assoc]
  · intro b
    simp [RustBinary.args, keys_rc_args, keys_common_args, keys_prc_args,
      List.append_assoc]
  · intro f
    simp [BuildscriptGenruleFilter.args, keys_bs_args, keys_append, keys_cons,
      keys_nil, List.append_assoc]
  · intro s
    simp [BuildscriptGenruleSrcs.args, keys_bs_args, keys_append, keys_cons,
      keys_nil, keys_optArg_notEmpty, List.append_assoc]
  · intro l
    simp [CxxLibrary.args, keys_common_args, keys_append, keys_cons, keys_nil,
      keys_optArg_notEmpty, keys_optArg_setOrMap, keys_optionArg,
      List.append_assoc]
  · intro l
    simp [PrebuiltCxxLibrary.args, keys_common_args, keys_append, keys_cons,
      keys_nil, List.append_assoc]

/-- C2 fails on the code: the `platforms` argument of a rule with a non-empty
per-platform map is a map literal (whose values are `dict(...)` calls), not
itself a `dict(...)` call. -/
theorem platforms_arg_is_map_literal :
    getArg (RustCommon.args rc0) ArgKey.platform
      = some (serialize_platforms_dict [("linux-x86_64", prc0)]) ∧
    (serialize_platforms_dict [("linux-x86_64", prc0)]).isCall = false ∧
    (serialize_platforms_dict [("linux-x86_64", prc0)]).isMap = true :=
  ⟨rfl, rfl, rfl⟩

/-- C2 (amended): when the per-platform map is non-empty the `platforms`
argument is emitted as a map literal binding each platform key to a
`dict(...)` call of that platform's serialized attributes, and it is omitted
exactly when the map is empty. -/
theorem platforms_arg_shape (rc : RustCommon) :
    (ArgKey.platform ∈ keys rc.args ↔ rc.platform ≠ []) ∧
    (serialize_platforms_dict rc.platform).isMap = true ∧
    (∀ nv ∈ rc.platform,
      (SVal.str nv.1, SVal.call "dict" (PlatformRustCommon.args nv.2))
        ∈ platformEntries rc.platform) := by
  refine ⟨?_, rfl, ?_⟩
  · rw [keys_rc_args, keys_common_args, keys_prc_args]
    simp [List.mem_append, mem_ite_nil_single]
  · intro nv h
    exact List.mem_map_of_mem _ h

/-- Witness for C2 (amended): the single entry of `rc0`'s per-platform map is
emitted as its key bound to a `dict(...)` call. -/
theorem platforms_arg_shape_witness :
    (SVal.str "linux-x86_64", SVal.call "dict" (PlatformRustCommon.args prc0))
      ∈ platformEntries rc0.platform :=
  (platforms_arg_shape rc0).2.2 ("linux-x86_64", prc0) (by simp [rc0])

/-- C8 fails on the code: `serialize_platforms_dict` takes no configuration
input and emits every entry of the per-platform map; here a configuration
whose platform map is empty (so no key is "known") still sees the entry with
key `weird-platform` emitted. -/
theorem unknown_platform_key_still_emitted :
    Config.platform { platform := [] } = [] ∧
    (SVal.str "weird-platform", SVal.call "dict" (PlatformRustCommon.args prc0))
      ∈ platformEntries [("weird-platform", prc0)] := by
  exact ⟨rfl, by simp [platformEntries]⟩

/-- C8 (amended): a per-platform entry is emitted for a platform key iff the
key occurs in the rule's own per-platform map, independent of the emission
configuration (the serializer never consults `Config.platform`). -/
theorem platform_entries_independent_of_config (_cfg : Config)
    (platforms : List (String × PlatformRustCommon)) (n : String) :
    (∃ v, (n, v) ∈ platforms) ↔
    (∃ a, (SVal.str n, SVal.call "dict" a) ∈ platformEntries platforms) := by
  constructor
  · rintro ⟨v, hv⟩
    exact ⟨PlatformRustCommon.args v, List.mem_map_of_mem _ hv⟩
  · rintro ⟨a, ha⟩
    rcases List.mem_map.mp ha with ⟨nv, hmem, heq⟩
    rcases nv with ⟨m, v⟩
    simp only [Prod.mk.injEq, SVal.str.injEq, SVal.call.injEq] at heq
    obtain ⟨rfl, -⟩ := heq
    exact ⟨v, hmem⟩

/-- C6: every rule variant carrying a `public` flag always emits the
`visibility` argument — as `["PUBLIC"]` when public is true and as the empty
list when it is false; it is never omitted. -/
theorem visibility_always_emitted :
    (∀ a : Alias, getArg a.args ArgKey.visibility
      = some (.list (if a.public then [.str "PUBLIC"] else []))) ∧
    (∀ l : RustLibrary, getArg l.args ArgKey.visibility
      = some (.list (if l.common.common.public then [.str "PUBLIC"] else []))) ∧
    (∀ b : RustBinary, getArg b.args ArgKey.visibility
      = some (.list (if b.common.common.public then [.str "PUBLIC"] else []))) ∧
    (∀ l : CxxLibrary, getArg l.args ArgKey.visibility
      = some (.list (if l.common.public then [.str "PUBLIC"] else []))) ∧
    (∀ l : PrebuiltCxxLibrary, getArg l.args ArgKey.visibility
      = some (.list (if l.common.public then [.str "PUBLIC"] else []))) := by
  refine ⟨?_, ?_, ?_, ?_, ?_⟩
  · intro a
    simp [Alias.args, getArg, visibility]
  · intro l
    simp [RustLibrary.args, RustCommon.args, Common.args, getArg, visibility,
      List.cons_append, List.append_assoc]
  · intro b
    simp [RustBinary.args, RustCommon.args, Common.args, getArg, visibility,
      List.cons_append, List.append_assoc]
  · intro l
    simp [CxxLibrary.args, Common.args, getArg, visibility,
      List.cons_append, List.append_assoc]
  · intro l
    simp [PrebuiltCxxLibrary.args, Common.args, getArg, visibility,
      List.cons_append, List.append_assoc]

/-! The build-file writer. -/

theorem ite_isEmpty (s a b : String) :
    (if s.isEmpty then a else b) = if s = "" then a else b := by
  by_cases h : s = ""
  · subst h
    rw [if_pos rfl]
    rfl
  · have he : s.isEmpty = false := by
      rcases hb : s.isEmpty with _ | _
      · rfl
      · exact absurd ((String.isEmpty_iff s).mp hb) h
    rw [he, if_neg h]
    rfl

theorem writeRulesFrom_pos (call : Rule → String) (rules : List Rule) :
    ∀ i, 0 < i →
      writeRulesFrom call i rules
        = joinAll (rules.map fun r => "\n" ++ (call r ++ "\n")) := by
  induction rules with
  | nil => intro i _; rfl
  | cons r rs ih =>
    intro i hi
    rw [writeRulesFrom, if_pos hi, ih (i + 1) (Nat.succ_pos i)]
    simp [joinAll, Rule.render, String.append_assoc]

theorem writeRules_sepJoin (call : Rule → String) (rules : List Rule) :
    writeRulesFrom call 0 rules = sepJoin (rules.map fun r => call r ++ "\n") := by
  cases rules with
  | nil => rfl
  | cons r rs =>
    rw [writeRulesFrom, writeRulesFrom_pos call rs 1 Nat.one_pos]
    simp [sepJoin, Rule.render, joinAll, List.map_map, Function.comp_def,
      String.append_assoc]

/-- C7: `write_buckfile` writes the configured header followed by a newline
only when the header is non-empty, then the configured preamble of load
statements likewise, then each rule from the iterator in exactly the order
received — a blank-line separator before every rule after the first and a
trailing newline after each rule — with no sorting and no deduplication (the
output is the separator-join of the rendered rules in input order and
multiplicity). -/
theorem write_buckfile_spec (config : BuckConfig) (call : Rule → String)
    (rules : List Rule) :
    write_buckfile config call rules =
      (if config.generated_file_header.value = "" then ""
       else config.generated_file_header.value ++ "\n")
      ++ ((if config.buckfile_imports.value = "" then ""
           else config.buckfile_imports.value ++ "\n")
          ++ sepJoin (rules.map fun r => call r ++ "\n")) := by
  rw [write_buckfile, writeRules_sepJoin, ite_isEmpty, ite_isEmpty]
  by_cases h1 : config.generated_file_header.value = "" <;>
    by_cases h2 : config.buckfile_imports.value = "" <;>
      simp [h1, h2, String.append_assoc, String.empty_append, String.append_empty]

end Reindeer
